import Mathlib

/-!
Verification development for the raster-sandbox repository: a shallow
embedding of the three Python scripts (`learning/cors_server.py`,
`learning/raster_tiles.py`, `learning/raster_tiles_v2.py`) and proofs of
the spec's claims about them.

Conventions of the embedding:
* Strings model Python strings; filenames are modelled as lists of them.
* Subprocess runs, filesystem writes and log lines become explicit events
  in a trace; per-run nondeterminism (which external invocations succeed,
  what a directory listing returns) is an explicit environment record.
* Python `sys.exit(n)` / function return codes become a `Nat` result.
-/

namespace RasterSandbox

/-! ### Generic string helpers (ASCII fragment of Python's str methods) -/

/-- ASCII lowering of one character, the fragment of Python's `str.lower`
exercised by filenames. -/
def lowerChar (c : Char) : Char :=
  if 'A' ≤ c ∧ c ≤ 'Z' then Char.ofNat (c.toNat + 32) else c

/-- `s.lower()` on a list of characters. -/
def lowerL (s : List Char) : List Char := s.map lowerChar

/-- Python `s.lower()` restricted to ASCII. -/
def pyLower (s : String) : String := String.mk (lowerL s.toList)

/-- Does `p` occur at the head of `s`? -/
def headMatches : List Char → List Char → Bool
  | [], _ => true
  | _ :: _, [] => false
  | p :: ps, c :: cs => p == c && headMatches ps cs

/-- Python `s.startswith(p)`. -/
def pyStartswith (p s : String) : Bool := headMatches p.toList s.toList

/-- Python `s.endswith(p)`. -/
def pyEndswith (p s : String) : Bool :=
  headMatches p.toList.reverse s.toList.reverse

/-- Number of (possibly overlapping) occurrences of pattern `p` in `s`. -/
def countOccurL (p : List Char) : List Char → Nat
  | [] => 0
  | c :: cs => (if headMatches p (c :: cs) then 1 else 0) + countOccurL p cs

/-- Occurrence count lifted to `String`. -/
def countOccur (p s : String) : Nat := countOccurL p.toList s.toList

/-- Occurrences of `p` starting inside `xs` when `xs` is followed by the
text `t` (used to count chunk-by-chunk: only the first `|p| - 1`
characters after a chunk can influence its matches). -/
def boundedCount (p xs t : List Char) : Nat := countOccurL p (xs ++ t)

/-- Python `os.path.join(a, b)` for a non-empty relative `b` and an `a`
without trailing separator (the only shape the scripts produce). -/
def pathJoin (a b : String) : String := a ++ "/" ++ b

/-! ### CORS handlers (`cors_server.py` and the server in `raster_tiles.py`)

`CORSHTTPRequestHandler.end_headers` (cors_server.py lines 26-32) and
`RasterTileServer.end_headers` (raster_tiles.py lines 37-42) buffer three
extra headers and then flush via the base class.  The two variants differ
only in the value of `Access-Control-Allow-Headers`. -/

/-- The two server variants of the repository. -/
inductive Variant : Type
  | rasterTiles   -- `RasterTileServer` in raster_tiles.py
  | corsServer    -- `CORSHTTPRequestHandler` in cors_server.py
deriving DecidableEq

/-- Value of `Access-Control-Allow-Headers` sent by each variant:
`'*'` in raster_tiles.py line 41, `'Content-Type'` in cors_server.py
line 30. -/
def allowHeadersValue : Variant → String
  | Variant.rasterTiles => "*"
  | Variant.corsServer => "Content-Type"

/-- The three CORS headers each `end_headers` override adds, in the order
of the `send_header` calls. -/
def corsHeaders (v : Variant) : List (String × String) :=
  [ ("Access-Control-Allow-Origin", "*"),
    ("Access-Control-Allow-Methods", "GET, OPTIONS"),
    ("Access-Control-Allow-Headers", allowHeadersValue v) ]

/-- `end_headers`: the base handler has buffered `pending` headers for the
current response; the override appends the CORS headers and flushes, so the
response carries `pending ++ corsHeaders v`. -/
def end_headers (v : Variant) (pending : List (String × String)) :
    List (String × String) :=
  pending ++ corsHeaders v

/-- An HTTP response as observed by the client, together with the
filesystem paths the handler touched while producing it. -/
structure Response : Type where
  status : Nat
  headers : List (String × String)
  body : String
  fsAccesses : List String
deriving DecidableEq

/-- `do_OPTIONS` (cors_server.py lines 34-37, raster_tiles.py lines 44-47):
`send_response(200)` then `end_headers()`; no body is written and the
static-file machinery is never consulted, whatever the request path. -/
def do_OPTIONS (v : Variant) (path : String) : Response :=
  let _ := path   -- the handler ignores the request path
  { status := 200
    headers := end_headers v []
    body := ""
    fsAccesses := [] }

/-! ### Filename handling (`os.path.basename` / `os.path.splitext`) -/

/-- `os.path.basename`: the suffix after the last `'/'`. -/
def basenameL (s : List Char) : List Char :=
  (s.reverse.takeWhile (fun c => c != '/')).reverse

/-- Root part of `os.path.splitext` on a basename: drop the suffix that
starts at the last dot, but only when some character before that dot is not
itself a dot (CPython skips the leading dots of the name). -/
def splitextRootL (s : List Char) : List Char :=
  let r := s.reverse
  let ext := r.takeWhile (fun c => c != '.')
  if ext.length == r.length then s
  else
    let stem := r.drop (ext.length + 1)
    if stem.all (fun c => c == '.') then s else stem.reverse

/-- `os.path.splitext(os.path.basename(f))[0]` — the source name derived
from a raster file path (raster_tiles.py line 269). -/
def sourceName (f : String) : String :=
  String.mk (splitextRootL (basenameL f.toList))

/-! ### v1 batch driver: `process_with_gdal_cli` (raster_tiles.py 221-316) -/

/-- One observable event of a batch run: subprocess invocations, filesystem
writes/removals, and log lines. -/
inductive Ev : Type
  | probeTool (cmd : List String)   -- the up-front `gdal2tiles.py --version`
  | ensureDir (p : String)          -- os.makedirs(p, exist_ok=True)
  | runWarp (cmd : List String)     -- subprocess.run of gdalwarp
  | createVrt (p : String)          -- gdalwarp wrote the VRT (success case)
  | runTiles (cmd : List String)    -- subprocess.run of gdal2tiles.py
  | writeTiles (dir : String)       -- gdal2tiles wrote tiles (success case)
  | removeFile (p : String)         -- os.remove succeeded
  | createDir (p : String)          -- os.makedirs actually created p
  | writeFile (p : String)          -- open(p, 'w') + write
  | logError (m : String)
  | logWarning (m : String)
  | logInfo (m : String)
deriving DecidableEq

/-- The `resampling_map` dict of raster_tiles.py lines 245-253. -/
def resampling_map : List (String × String) :=
  [ ("nearest", "near"), ("bilinear", "bilinear"), ("cubic", "cubic"),
    ("cubicspline", "cubicspline"), ("lanczos", "lanczos"),
    ("average", "average"), ("mode", "mode") ]

/-- `resampling_map.get(resampling_method, "cubic")` (line 254). -/
def resamplingCli (resampling_method : String) : String :=
  ((resampling_map.lookup resampling_method).getD "cubic")

/-- The `format_map` dict of raster_tiles.py lines 257-261. -/
def format_map : List (String × String) :=
  [ ("png", "PNG"), ("jpg", "JPEG"), ("webp", "WEBP") ]

/-- `format_map.get(output_format.lower(), "PNG")` (line 262). -/
def gdalFormatOf (output_format : String) : String :=
  ((format_map.lookup (pyLower output_format)).getD "PNG")

/-- Argument vector of the `gdalwarp` invocation (lines 280-287). -/
def warpCmd (resampling tifFile vrtPath : String) : List String :=
  ["gdalwarp", "-t_srs", "EPSG:3857", "-r", resampling, "-of", "VRT",
   tifFile, vrtPath]

/-- Argument vector of the `gdal2tiles.py` invocation (lines 292-302). -/
def tilesCmd (minZoom maxZoom : Int) (resampling gdalFormat : String)
    (cpuCount : Nat) (vrtPath tileDir : String) : List String :=
  ["gdal2tiles.py",
   "--zoom", toString minZoom ++ "-" ++ toString maxZoom,
   "--resampling", resampling,
   "--webviewer", "none",
   "--tilesize", "256",
   "--processes", toString cpuCount,
   "--format", gdalFormat,
   vrtPath, tileDir]

/-- Outcome of the external steps for one source file: does `gdalwarp`
exit 0, does `gdal2tiles.py` exit 0, does the `os.remove` of the VRT
succeed. -/
structure FileOutcome : Type where
  warpOk : Bool
  tilesOk : Bool
  removeOk : Bool
deriving DecidableEq

/-- Environment of one v1 batch run: tool availability, the input
directory listing, the per-file external outcomes, `int(time.time())` and
`os.cpu_count() or 1`. -/
structure Env1 : Type where
  gdal2tilesAvailable : Bool
  listing : List String
  outcome : String → FileOutcome
  timestamp : Nat
  cpuCount : Nat

/-- The v1 extension filter `f.lower().endswith(('.tif', '.tiff'))`
(raster_tiles.py line 238). -/
def matchesV1 (f : String) : Bool :=
  pyEndswith ".tif" (pyLower f) || pyEndswith ".tiff" (pyLower f)

/-- Temporary VRT path of raster_tiles.py line 277. -/
def vrtPathOf (outputDir name : String) (timestamp : Nat) : String :=
  pathJoin outputDir
    ("temp_web_mercator_" ++ name ++ "_" ++ toString timestamp ++ ".vrt")

/-- Body of the per-file `try` block (raster_tiles.py lines 266-314):
trace of events plus `some name` when the file ends up in
`processed_sources`.  An exception from either subprocess jumps to the
`except` clause (log, no VRT removal); a failing `os.remove` only warns. -/
def processOneTif (env : Env1) (outputDir : String) (minZoom maxZoom : Int)
    (outputFormat resamplingMethod : String) (tifFile : String) :
    List Ev × Option String :=
  let o := env.outcome tifFile
  let name := sourceName tifFile
  let tileDir := pathJoin outputDir name
  let vrtPath := vrtPathOf outputDir name env.timestamp
  let resampling := resamplingCli resamplingMethod
  let gdalFormat := gdalFormatOf outputFormat
  let evs0 := [Ev.logInfo ("Processing " ++ name ++ "..."),
               Ev.ensureDir tileDir,
               Ev.logInfo "Creating Web Mercator VRT...",
               Ev.runWarp (warpCmd resampling tifFile vrtPath)]
  if !o.warpOk then
    (evs0 ++ [Ev.logError ("Error processing " ++ tifFile)], none)
  else
    let evs1 := evs0 ++
      [Ev.createVrt vrtPath,
       Ev.runTiles (tilesCmd minZoom maxZoom resampling gdalFormat
                      env.cpuCount vrtPath tileDir)]
    if !o.tilesOk then
      (evs1 ++ [Ev.logError ("Error processing " ++ tifFile)], none)
    else
      let evs2 := evs1 ++ [Ev.writeTiles tileDir] ++
        (if o.removeOk then [Ev.removeFile vrtPath]
         else [Ev.logWarning ("Could not remove temporary file " ++ vrtPath)]) ++
        [Ev.logInfo ("Completed processing " ++ name)]
      (evs2, some name)

/-- The `for tif_file in tif_files` loop (lines 266-314): every file is
attempted in order; successes are appended to `processed_sources`. -/
def processLoop (env : Env1) (outputDir : String) (minZoom maxZoom : Int)
    (outputFormat resamplingMethod : String) :
    List String → List Ev × List String
  | [] => ([], [])
  | f :: fs =>
      let r := processOneTif env outputDir minZoom maxZoom outputFormat
                 resamplingMethod f
      let rest := processLoop env outputDir minZoom maxZoom outputFormat
                 resamplingMethod fs
      (r.1 ++ rest.1,
       (match r.2 with | some n => [n] | none => []) ++ rest.2)

/-- `process_with_gdal_cli` (raster_tiles.py lines 221-316): probe
`gdal2tiles.py --version` up front; enumerate `.tif`/`.tiff` files
(case-insensitively) from the listing; process each; return the trace and
the `processed_sources` list. -/
def process_with_gdal_cli (env : Env1) (inputDir outputDir : String)
    (minZoom maxZoom : Int) (outputFormat resamplingMethod : String) :
    List Ev × List String :=
  let probe := [Ev.probeTool ["gdal2tiles.py", "--version"]]
  if !env.gdal2tilesAvailable then
    (probe ++ [Ev.logError "gdal2tiles.py not found. Please install GDAL command-line tools."], [])
  else
    let tifFiles := (env.listing.filter matchesV1).map (pathJoin inputDir)
    if tifFiles.isEmpty then
      (probe ++ [Ev.logWarning ("No .tif files found in " ++ inputDir)], [])
    else
      let r := processLoop env outputDir minZoom maxZoom outputFormat
                 resamplingMethod tifFiles
      (probe ++ r.1, r.2)

/-- A file counts as successfully processed when both external steps
exit 0 (a failing VRT removal does not demote it). -/
def fileSucceeds (env : Env1) (f : String) : Bool :=
  (env.outcome f).warpOk && (env.outcome f).tilesOk

/-- The `gdalwarp` argument vectors occurring in a trace, in order: one
per attempted file. -/
def warpCmds (evs : List Ev) : List (List String) :=
  evs.filterMap (fun e => match e with | Ev.runWarp c => some c | _ => none)

/-- The `gdal2tiles.py` argument vectors occurring in a trace, in order. -/
def tilesCmds (evs : List Ev) : List (List String) :=
  evs.filterMap (fun e => match e with | Ev.runTiles c => some c | _ => none)

/-- Paths actually created by `os.makedirs` in a trace. -/
def createDirPaths (evs : List Ev) : List String :=
  evs.filterMap (fun e => match e with | Ev.createDir p => some p | _ => none)

/-- Number of temporary VRT files written in a trace. -/
def createVrtCount (evs : List Ev) : Nat :=
  (evs.filterMap (fun e => match e with | Ev.createVrt p => some p | _ => none)).length

/-- Number of successful `os.remove` calls in a trace. -/
def removeCount (evs : List Ev) : Nat :=
  (evs.filterMap (fun e => match e with | Ev.removeFile p => some p | _ => none)).length

/-- Every path a trace writes to (directories made or created, VRTs,
tile output, removals, plain file writes). -/
def writeTargets (evs : List Ev) : List String :=
  evs.filterMap (fun e => match e with
    | Ev.ensureDir p => some p
    | Ev.createDir p => some p
    | Ev.createVrt p => some p
    | Ev.writeTiles p => some p
    | Ev.removeFile p => some p
    | Ev.writeFile p => some p
    | _ => none)

/-! ### v1 `main` (raster_tiles.py lines 319-415)

`main` makedirs both directories (`exist_ok=True`, lines 350-352), then —
unless `--serve-only` — processes via `RasterTiler` (an external module,
falling back to `process_with_gdal_cli` on exception) or directly via
`process_with_gdal_cli`, writes the viewer HTML, starts the server
(blocking until interrupted) and returns 0.  In serve-only mode it
returns 1 when the output directory holds no source subdirectories. -/

/-- CLI arguments of the v1 driver (argparse, lines 321-343). -/
structure Args1 : Type where
  inputDir : String
  outputDir : String
  minZoom : Int
  maxZoom : Int
  outputFormat : String
  resampling : String
  port : Nat
  serveOnly : Bool
  forceCli : Bool

/-- Environment of a v1 `main` run: the CLI-processing environment plus
the `RasterTiler` import/run outcome, the output directory's
subdirectories, and which of the two directories already exist. -/
structure EnvMain1 : Type where
  cli : Env1
  rasterTilerAvailable : Bool
  tilerResult : Option (List String)   -- `none` models a raised exception
  outputSubdirs : List String
  inputDirExists : Bool
  outputDirExists : Bool

/-- `os.makedirs(p, exist_ok=True)`: mutates the filesystem only when the
directory is missing. -/
def makedirs (dirExists : Bool) (p : String) : List Ev :=
  if dirExists then [] else [Ev.createDir p]

/-- v1 `main` (lines 319-411): trace of events and the returned exit
code. -/
def mainV1 (e : EnvMain1) (a : Args1) : List Ev × Nat :=
  let mkEvs := makedirs e.inputDirExists a.inputDir ++
               makedirs e.outputDirExists a.outputDir
  if !a.serveOnly then
    let processed :=
      if e.rasterTilerAvailable && !a.forceCli then
        match e.tilerResult with
        | some srcs => (([] : List Ev), srcs)
        | none => process_with_gdal_cli e.cli a.inputDir a.outputDir
                    a.minZoom a.maxZoom a.outputFormat a.resampling
      else
        process_with_gdal_cli e.cli a.inputDir a.outputDir
          a.minZoom a.maxZoom a.outputFormat a.resampling
    (mkEvs ++ processed.1 ++ [Ev.writeFile (pathJoin a.outputDir "viewer.html")], 0)
  else
    if e.outputSubdirs.isEmpty then
      (mkEvs ++ [Ev.logError ("No tile sources found in " ++ a.outputDir)], 1)
    else
      (mkEvs ++ [Ev.writeFile (pathJoin a.outputDir "viewer.html")], 0)

/-! ### v2 driver (`raster_tiles_v2.py`) -/

/-- CLI arguments of the v2 driver (argparse, lines 107-116). -/
structure Args2 : Type where
  inputDir : String
  outputDir : String
  minZoom : Int
  maxZoom : Int
  fmt : String
  resampling : String
  singleFile : Option String

/-- Environment of a v2 run: `HAS_GDAL` (the `osgeo` import), the
`gdal_translate --version` probe, the input directory's existence and
listing, the per-file `gdal2tiles.py` outcome, the `--single-file`
existence check, and the output directory's existence. -/
structure Env2 : Type where
  hasGdal : Bool
  gdalCliAvailable : Bool
  inputDirExists : Bool
  listing : List String
  cliOk : String → Bool
  singleFileExists : Bool
  outputDirExists : Bool

/-- The v2 extension filter: `Path(input_dir).glob('*.tif')` (line 146).
`fnmatch` of the pattern `*.tif` is case-sensitive and `*` does not match
a leading dot, so exactly the non-hidden entries ending in lowercase
`.tif` are enumerated. -/
def matchesV2 (f : String) : Bool :=
  !pyStartswith "." f && pyEndswith ".tif" f

/-- The file paths the v2 driver enumerates when no `--single-file` is
given (a glob over a missing directory yields nothing). -/
def tifFilesV2 (env : Env2) (a : Args2) : List String :=
  (((if env.inputDirExists then env.listing else []).filter matchesV2).map
    (pathJoin a.inputDir))

/-- The `gdal2tiles.py` command `process_raster_cli` builds (lines 47-60):
zoom/resampling/webviewer flags, a `--format` flag only for non-PNG, then
the input file and output directory. -/
def gdal2tilesCmdV2 (minZoom maxZoom : Int) (fmt resampling : String)
    (inputFile outputDir : String) : List String :=
  let cmd := ["gdal2tiles.py",
              "--zoom=" ++ toString minZoom ++ "-" ++ toString maxZoom,
              "--resampling=" ++ resampling,
              "--webviewer=none"]
  let cmd := if pyLower fmt != "png" then cmd ++ ["--format=" ++ fmt] else cmd
  cmd ++ [inputFile, outputDir]

/-- `process_raster_cli` (lines 38-89): ensure the output directory, log
and run the command; `True` exactly when `gdal2tiles.py` exits 0. -/
def process_raster_cli (env : Env2) (inputFile outputDir : String)
    (minZoom maxZoom : Int) (fmt resampling : String) : List Ev × Bool :=
  let cmd := gdal2tilesCmdV2 minZoom maxZoom fmt resampling inputFile outputDir
  let evs := [Ev.ensureDir outputDir,
              Ev.logInfo ("Running: " ++ String.intercalate " " cmd),
              Ev.runTiles cmd]
  if env.cliOk inputFile then (evs ++ [Ev.writeTiles outputDir], true)
  else (evs ++ [Ev.logError "gdal2tiles.py failed"], false)

/-- `process_raster_python` (lines 91-103): with `HAS_GDAL` it logs and
calls straight back into `process_raster_cli`; without it, it logs an
error and returns `False` running nothing. -/
def process_raster_python (env : Env2) (inputFile outputDir : String)
    (minZoom maxZoom : Int) (fmt resampling : String) : List Ev × Bool :=
  if !env.hasGdal then
    ([Ev.logError "GDAL Python bindings are not available. Cannot process using Python API."],
     false)
  else
    let r := process_raster_cli env inputFile outputDir minZoom maxZoom fmt
               resampling
    ([Ev.logInfo ("Processing " ++ inputFile ++ " using GDAL Python bindings")]
       ++ r.1, r.2)

/-- The per-file loop of v2 `main` (lines 156-166): dispatch on
`HAS_GDAL`, count successes. -/
def loopV2 (env : Env2) (a : Args2) : List String → List Ev × Nat
  | [] => ([], 0)
  | f :: fs =>
      let r := if env.hasGdal then
                 process_raster_python env f a.outputDir a.minZoom a.maxZoom
                   a.fmt a.resampling
               else
                 process_raster_cli env f a.outputDir a.minZoom a.maxZoom
                   a.fmt a.resampling
      let rest := loopV2 env a fs
      ([Ev.logInfo ("Processing " ++ f)] ++ r.1 ++ rest.1,
       (if r.2 then 1 else 0) + rest.2)

/-- v2 `main` (lines 105-175): probe `gdal_translate --version`; exit 1
when neither GDAL access path exists; makedirs the output directory;
enumerate (or check the single file); exit 1 on an empty enumeration;
process every file; exit 0 iff every file succeeded. -/
def mainV2 (env : Env2) (a : Args2) : List Ev × Nat :=
  let probe := [Ev.probeTool ["gdal_translate", "--version"]]
  if !env.hasGdal && !env.gdalCliAvailable then
    (probe ++ [Ev.logError "Neither GDAL Python bindings nor command-line tools are available. Cannot proceed."],
     1)
  else
    let evs0 := probe ++ makedirs env.outputDirExists a.outputDir
    match a.singleFile with
    | some f =>
        let p := pathJoin a.inputDir f
        if !env.singleFileExists then
          (evs0 ++ [Ev.logError ("Specified file " ++ p ++ " does not exist")], 1)
        else
          let l := loopV2 env a [p]
          (evs0 ++ l.1, if l.2 == 1 then 0 else 1)
    | none =>
        let tifs := tifFilesV2 env a
        if tifs.isEmpty then
          (evs0 ++ [Ev.logError ("No .tif files found in " ++ a.inputDir)], 1)
        else
          let l := loopV2 env a tifs
          (evs0 ++ l.1, if l.2 == tifs.length then 0 else 1)

/-! ### Viewer generator (`generate_html_viewer`, raster_tiles.py 75-218)

The Python builds one string: a fixed head (an f-string whose doubled
braces denote literal braces), one snippet per source (interpolating the
source name and port), and a fixed tail.  Literal braces are written
`\x7b`/`\x7d` below. -/

/-- The fixed head of the generated viewer document (lines 89-141). -/
def viewerHead : String :=
  "<!DOCTYPE html>\n" ++
  "<html lang=\"en\">\n" ++
  "<head>\n" ++
  "    <meta charset=\"UTF-8\">\n" ++
  "    <meta name=\"viewport\" content=\"width=device-width, initial-scale=1.0\">\n" ++
  "    <title>Raster Tile Viewer</title>\n" ++
  "    <link rel=\"stylesheet\" href=\"https://unpkg.com/leaflet@1.7.1/dist/leaflet.css\" />\n" ++
  "    <style>\n" ++
  "        body, html \x7b height: 100%; margin: 0; padding: 0; \x7d\n" ++
  "        #map \x7b height: 100%; \x7d\n" ++
  "        .layer-control \x7b\n" ++
  "            position: absolute;\n" ++
  "            top: 10px;\n" ++
  "            right: 10px;\n" ++
  "            z-index: 1000;\n" ++
  "            background: white;\n" ++
  "            padding: 10px;\n" ++
  "            border-radius: 5px;\n" ++
  "            box-shadow: 0 0 10px rgba(0,0,0,0.1);\n" ++
  "        \x7d\n" ++
  "        .layer-control h3 \x7b\n" ++
  "            margin-top: 0;\n" ++
  "            margin-bottom: 10px;\n" ++
  "        \x7d\n" ++
  "        .layer-item \x7b\n" ++
  "            margin-bottom: 5px;\n" ++
  "        \x7d\n" ++
  "    </style>\n" ++
  "</head>\n" ++
  "<body>\n" ++
  "    <div id=\"map\"></div>\n" ++
  "    <div class=\"layer-control\">\n" ++
  "        <h3>Raster Layers</h3>\n" ++
  "        <div id=\"layer-list\">\n" ++
  "            <!-- Layer controls will be added here -->\n" ++
  "        </div>\n" ++
  "    </div>\n" ++
  "\n" ++
  "    <script src=\"https://unpkg.com/leaflet@1.7.1/dist/leaflet.js\"></script>\n" ++
  "    <script>\n" ++
  "        // Initialize the map\n" ++
  "        const map = L.map('map').setView([0, 0], 2);\n" ++
  "        \n" ++
  "        // Add OpenStreetMap as a base layer\n" ++
  "        L.tileLayer('https://\x7bs\x7d.tile.openstreetmap.org/\x7bz\x7d/\x7bx\x7d/\x7by\x7d.png', \x7b\n" ++
  "            attribution: '&copy; <a href=\"https://www.openstreetmap.org/copyright\">OpenStreetMap</a> contributors'\n" ++
  "        \x7d).addTo(map);\n" ++
  "        \n" ++
  "        // Define the raster layers\n" ++
  "        const rasterLayers = \x7b'OpenStreetMap': null\x7d;\n" ++
  "        \n" ++
  "        // Add raster tile layers\n" ++
  "        "

/-- The per-source tile-layer snippet (lines 144-151). -/
def viewerLayerSnippet (source : String) (port : Nat) : String :=
  "\n        rasterLayers['" ++ source ++
  "'] = L.tileLayer('http://localhost:" ++ toString port ++ "/" ++ source ++
  "/\x7bz\x7d/\x7bx\x7d/\x7by\x7d.png', \x7b\n" ++
  "            minZoom: 0,\n" ++
  "            maxZoom: 18,\n" ++
  "            attribution: 'Generated Raster Tiles'\n" ++
  "        \x7d);\n" ++
  "        "

/-- The fixed tail of the generated viewer document (lines 154-213). -/
def viewerFoot : String :=
  "\n        // Create layer controls\n" ++
  "        const layerList = document.getElementById('layer-list');\n" ++
  "        \n" ++
  "        Object.keys(rasterLayers).forEach((layerName, index) => \x7b\n" ++
  "            const layerItem = document.createElement('div');\n" ++
  "            layerItem.className = 'layer-item';\n" ++
  "            \n" ++
  "            const checkbox = document.createElement('input');\n" ++
  "            checkbox.type = 'checkbox';\n" ++
  "            checkbox.id = `layer-$\x7bindex\x7d`;\n" ++
  "            checkbox.checked = index === 0;\n" ++
  "            \n" ++
  "            const label = document.createElement('label');\n" ++
  "            label.htmlFor = `layer-$\x7bindex\x7d`;\n" ++
  "            label.textContent = layerName;\n" ++
  "            \n" ++
  "            checkbox.addEventListener('change', () => \x7b\n" ++
  "                if (checkbox.checked) \x7b\n" ++
  "                    if (rasterLayers[layerName]) \x7b\n" ++
  "                        rasterLayers[layerName].addTo(map);\n" ++
  "                    \x7d\n" ++
  "                \x7d else \x7b\n" ++
  "                    if (rasterLayers[layerName]) \x7b\n" ++
  "                        map.removeLayer(rasterLayers[layerName]);\n" ++
  "                    \x7d\n" ++
  "                \x7d\n" ++
  "            \x7d);\n" ++
  "            \n" ++
  "            layerItem.appendChild(checkbox);\n" ++
  "            layerItem.appendChild(label);\n" ++
  "            layerList.appendChild(layerItem);\n" ++
  "            \n" ++
  "            // Add the first layer to the map\n" ++
  "            if (index === 1 && rasterLayers[layerName]) \x7b\n" ++
  "                rasterLayers[layerName].addTo(map);\n" ++
  "            \x7d\n" ++
  "        \x7d);\n" ++
  "        \n" ++
  "        // Try to fit the map to the bounds of the first layer\n" ++
  "        if (Object.keys(rasterLayers).length > 1) \x7b\n" ++
  "            const firstLayerName = Object.keys(rasterLayers)[1];\n" ++
  "            const firstLayer = rasterLayers[firstLayerName];\n" ++
  "            \n" ++
  "            // This will center the map when the first tiles load\n" ++
  "            if (firstLayer) \x7b\n" ++
  "                firstLayer.on('load', function() \x7b\n" ++
  "                    try \x7b\n" ++
  "                        // Center approximately on loaded tiles\n" ++
  "                        map.setView([35, -100], 4);\n" ++
  "                    \x7d catch (e) \x7b\n" ++
  "                        console.error('Error setting map view:', e);\n" ++
  "                    \x7d\n" ++
  "                \x7d);\n" ++
  "            \x7d\n" ++
  "        \x7d\n" ++
  "    </script>\n" ++
  "</body>\n" ++
  "</html>\n"

/-- The full document `generate_html_viewer` accumulates: head, one
snippet per source (in order), tail. -/
def viewerHtml (sources : List String) (port : Nat) : String :=
  viewerHead ++
  String.join (sources.map (fun s => viewerLayerSnippet s port)) ++
  viewerFoot

/-- `generate_html_viewer`: the path written
(`os.path.join(output_dir, 'viewer.html')`) and the content written
there. -/
def generate_html_viewer (sources : List String) (outputDir : String)
    (port : Nat) : String × String :=
  (pathJoin outputDir "viewer.html", viewerHtml sources port)

/-! ### Concrete runs used to settle individual claims -/

/-- A v1 run in which the external tool is unavailable. -/
def envNoTool : EnvMain1 :=
  { cli := { gdal2tilesAvailable := false, listing := ["a.tif"],
             outcome := fun _ => { warpOk := true, tilesOk := true, removeOk := true },
             timestamp := 0, cpuCount := 1 }
    rasterTilerAvailable := false, tilerResult := none, outputSubdirs := []
    inputDirExists := true, outputDirExists := true }

/-- Default-flavoured v1 arguments, processing mode. -/
def argsDefault1 : Args1 :=
  { inputDir := "raster_input", outputDir := "raster_tiles", minZoom := 0,
    maxZoom := 14, outputFormat := "png", resampling := "cubic", port := 8090,
    serveOnly := false, forceCli := false }

/-- A v1 CLI environment in which `gdalwarp` succeeds but `gdal2tiles.py`
fails for every file. -/
def envTilesFail : Env1 :=
  { gdal2tilesAvailable := true, listing := ["a.tif"],
    outcome := fun _ => { warpOk := true, tilesOk := false, removeOk := true },
    timestamp := 0, cpuCount := 1 }

/-- A v1 run whose input directory is missing. -/
def envNoInputDir : EnvMain1 :=
  { cli := { gdal2tilesAvailable := true, listing := [],
             outcome := fun _ => { warpOk := true, tilesOk := true, removeOk := true },
             timestamp := 0, cpuCount := 1 }
    rasterTilerAvailable := false, tilerResult := none, outputSubdirs := []
    inputDirExists := false, outputDirExists := true }

/-- A v1 CLI environment demonstrating per-file isolation: three matching
files, the middle one failing. -/
def envMiddleFails : Env1 :=
  { gdal2tilesAvailable := true, listing := ["a.tif", "b.tif", "c.tif", "notes.txt"],
    outcome := fun f => if f == "in/b.tif" then
        { warpOk := true, tilesOk := false, removeOk := true }
      else { warpOk := true, tilesOk := true, removeOk := true },
    timestamp := 7, cpuCount := 2 }

end RasterSandbox

namespace RasterSandbox

/-- C1: every response of either variant carries the three CORS headers,
with the variant-specific `Access-Control-Allow-Headers` value. -/
theorem claim1_cors_headers_always_present (v : Variant)
    (pending : List (String × String)) :
    ("Access-Control-Allow-Origin", "*") ∈ end_headers v pending ∧
    ("Access-Control-Allow-Methods", "GET, OPTIONS") ∈ end_headers v pending ∧
    ("Access-Control-Allow-Headers", allowHeadersValue v) ∈ end_headers v pending ∧
    (v = Variant.rasterTiles → allowHeadersValue v = "*") ∧
    (v = Variant.corsServer → allowHeadersValue v = "Content-Type") := by
  refine ⟨?_, ?_, ?_, ?_, ?_⟩
  · exact List.mem_append_right _ (by simp [corsHeaders])
  · exact List.mem_append_right _ (by simp [corsHeaders])
  · exact List.mem_append_right _ (by simp [corsHeaders])
  · intro h; subst h; rfl
  · intro h; subst h; rfl

/-- C1 witness: the headers at a concrete pending list, both variants. -/
theorem claim1_cors_headers_always_present_witness :
    ("Access-Control-Allow-Origin", "*")
        ∈ end_headers Variant.rasterTiles [("Content-Length", "12")] ∧
    ("Access-Control-Allow-Headers", allowHeadersValue Variant.corsServer)
        ∈ end_headers Variant.corsServer [] := by
  refine ⟨(claim1_cors_headers_always_present Variant.rasterTiles
      [("Content-Length", "12")]).1, ?_⟩
  exact (claim1_cors_headers_always_present Variant.corsServer []).2.2.1

/-- C2: an OPTIONS request, on any path and for either variant, gets
status 200, an empty body, no filesystem access, and the CORS headers. -/
theorem claim2_options_200_empty_no_fs (v : Variant) (path : String) :
    (do_OPTIONS v path).status = 200 ∧
    (do_OPTIONS v path).body = "" ∧
    (do_OPTIONS v path).fsAccesses = [] ∧
    (do_OPTIONS v path).headers = corsHeaders v := by
  refine ⟨rfl, rfl, rfl, ?_⟩
  simp [do_OPTIONS, end_headers]

/-! ### Trace bookkeeping lemmas -/

theorem warpCmds_append (a b : List Ev) :
    warpCmds (a ++ b) = warpCmds a ++ warpCmds b :=
  List.filterMap_append a b _

theorem tilesCmds_append (a b : List Ev) :
    tilesCmds (a ++ b) = tilesCmds a ++ tilesCmds b :=
  List.filterMap_append a b _

theorem createDirPaths_append (a b : List Ev) :
    createDirPaths (a ++ b) = createDirPaths a ++ createDirPaths b :=
  List.filterMap_append a b _

theorem headMatches_self_append (p t : List Char) :
    headMatches p (p ++ t) = true := by
  induction p with
  | nil => rfl
  | cons c cs ih => simp [headMatches, ih]

theorem pyStartswith_self_append (a b : String) :
    pyStartswith a (a ++ b) = true := by
  unfold pyStartswith
  rw [show (a ++ b).toList = a.toList ++ b.toList from String.data_append a b]
  exact headMatches_self_append a.toList b.toList

theorem pyStartswith_pathJoin (d x : String) :
    pyStartswith (d ++ "/") (pathJoin d x) = true := by
  unfold pathJoin
  exact pyStartswith_self_append (d ++ "/") x

/-! ### Per-file and loop lemmas for the v1 driver -/

theorem processOneTif_snd (env : Env1) (d : String) (z1 z2 : Int)
    (fmt rm f : String) :
    (processOneTif env d z1 z2 fmt rm f).2
      = if fileSucceeds env f then some (sourceName f) else none := by
  unfold processOneTif fileSucceeds
  cases hw : (env.outcome f).warpOk <;> cases ht : (env.outcome f).tilesOk <;>
    cases hr : (env.outcome f).removeOk <;> simp [hw, ht, hr]

theorem processOneTif_warpCmds (env : Env1) (d : String) (z1 z2 : Int)
    (fmt rm f : String) :
    warpCmds (processOneTif env d z1 z2 fmt rm f).1
      = [warpCmd (resamplingCli rm) f (vrtPathOf d (sourceName f) env.timestamp)] := by
  unfold processOneTif
  cases hw : (env.outcome f).warpOk <;> cases ht : (env.outcome f).tilesOk <;>
    cases hr : (env.outcome f).removeOk <;>
      simp [hw, ht, hr, warpCmds, List.filterMap_append]

theorem processOneTif_createVrtCount (env : Env1) (d : String) (z1 z2 : Int)
    (fmt rm f : String) :
    createVrtCount (processOneTif env d z1 z2 fmt rm f).1
      = if (env.outcome f).warpOk then 1 else 0 := by
  unfold processOneTif
  cases hw : (env.outcome f).warpOk <;> cases ht : (env.outcome f).tilesOk <;>
    cases hr : (env.outcome f).removeOk <;>
      simp [hw, ht, hr, createVrtCount, List.filterMap_append]

theorem processOneTif_removeCount (env : Env1) (d : String) (z1 z2 : Int)
    (fmt rm f : String) :
    removeCount (processOneTif env d z1 z2 fmt rm f).1
      = if (env.outcome f).warpOk && (env.outcome f).tilesOk &&
           (env.outcome f).removeOk then 1 else 0 := by
  unfold processOneTif
  cases hw : (env.outcome f).warpOk <;> cases ht : (env.outcome f).tilesOk <;>
    cases hr : (env.outcome f).removeOk <;>
      simp [hw, ht, hr, removeCount, List.filterMap_append]

theorem processOneTif_writeTargets (env : Env1) (d : String) (z1 z2 : Int)
    (fmt rm f : String) :
    (writeTargets (processOneTif env d z1 z2 fmt rm f).1).all
      (fun p => pyStartswith (d ++ "/") p) = true := by
  unfold processOneTif vrtPathOf
  cases hw : (env.outcome f).warpOk <;> cases ht : (env.outcome f).tilesOk <;>
    cases hr : (env.outcome f).removeOk <;>
      simp [hw, ht, hr, writeTargets, List.filterMap_append,
        pyStartswith_pathJoin]

theorem processLoop_snd (env : Env1) (d : String) (z1 z2 : Int)
    (fmt rm : String) (files : List String) :
    (processLoop env d z1 z2 fmt rm files).2
      = (files.filter (fileSucceeds env)).map sourceName := by
  induction files with
  | nil => rfl
  | cons f fs ih =>
      simp only [processLoop, ih, List.filter_cons]
      cases hs : fileSucceeds env f <;>
        simp [processOneTif_snd, hs]

theorem processLoop_warpCmds (env : Env1) (d : String) (z1 z2 : Int)
    (fmt rm : String) (files : List String) :
    warpCmds (processLoop env d z1 z2 fmt rm files).1
      = files.map
          (fun f => warpCmd (resamplingCli rm) f
            (vrtPathOf d (sourceName f) env.timestamp)) := by
  induction files with
  | nil => rfl
  | cons f fs ih =>
      simp only [processLoop, warpCmds_append, ih, processOneTif_warpCmds,
        List.map_cons]
      rfl

/-- The CLI batch routine with the tool available: returned sources are
the successful files' names in enumeration order, and every enumerated
file gets exactly one `gdalwarp` invocation. -/
theorem process_cli_spec (env : Env1) (inputDir outputDir : String)
    (z1 z2 : Int) (fmt rm : String) (h : env.gdal2tilesAvailable = true) :
    (process_with_gdal_cli env inputDir outputDir z1 z2 fmt rm).2
      = (((env.listing.filter matchesV1).map (pathJoin inputDir)).filter
          (fileSucceeds env)).map sourceName ∧
    warpCmds (process_with_gdal_cli env inputDir outputDir z1 z2 fmt rm).1
      = ((env.listing.filter matchesV1).map (pathJoin inputDir)).map
          (fun f => warpCmd (resamplingCli rm) f
            (vrtPathOf outputDir (sourceName f) env.timestamp)) := by
  unfold process_with_gdal_cli
  simp only [h, Bool.not_true, Bool.false_eq_true, if_false]
  cases he : ((env.listing.filter matchesV1).map (pathJoin inputDir)).isEmpty
  · simp only [Bool.false_eq_true, if_false]
    refine ⟨processLoop_snd env outputDir z1 z2 fmt rm _, ?_⟩
    show warpCmds ([Ev.probeTool ["gdal2tiles.py", "--version"]] ++
      (processLoop env outputDir z1 z2 fmt rm
        ((env.listing.filter matchesV1).map (pathJoin inputDir))).1) = _
    rw [warpCmds_append, processLoop_warpCmds]
    simp [warpCmds]
  · rw [List.isEmpty_iff] at he
    refine ⟨?_, ?_⟩ <;> simp [he, warpCmds]

/-- Failing files still leave their logged error in the trace. -/
theorem processLoop_error_mem (env : Env1) (d : String) (z1 z2 : Int)
    (fmt rm : String) (files : List String) (f : String) (hf : f ∈ files)
    (hs : fileSucceeds env f = false) :
    Ev.logError ("Error processing " ++ f)
      ∈ (processLoop env d z1 z2 fmt rm files).1 := by
  induction files with
  | nil => cases hf
  | cons g gs ih =>
      simp only [processLoop]
      rcases List.mem_cons.mp hf with h | h
      · subst h
        apply List.mem_append_left
        unfold fileSucceeds at hs
        unfold processOneTif
        cases hw : (env.outcome f).warpOk <;>
          cases ht : (env.outcome f).tilesOk <;>
            simp [hw, ht] at hs ⊢
      · exact List.mem_append_right _ (ih h)

/-! ### Loop lemmas for the v2 driver -/

theorem loopV2_count (env : Env2) (a : Args2) (files : List String) :
    (loopV2 env a files).2 = (files.filter env.cliOk).length := by
  induction files with
  | nil => rfl
  | cons f fs ih =>
      unfold loopV2
      cases hg : env.hasGdal <;> cases hc : env.cliOk f <;>
        simp [hg, hc, ih, process_raster_python, process_raster_cli,
          List.filter_cons] <;> omega

theorem loopV2_tilesCmds (env : Env2) (a : Args2) (files : List String) :
    tilesCmds (loopV2 env a files).1
      = files.map (fun f => gdal2tilesCmdV2 a.minZoom a.maxZoom a.fmt
          a.resampling f a.outputDir) := by
  induction files with
  | nil => rfl
  | cons f fs ih =>
      unfold loopV2
      cases hg : env.hasGdal <;> cases hc : env.cliOk f <;>
        simp [hg, hc, ih, process_raster_python, process_raster_cli,
          tilesCmds, List.filterMap_append] <;> exact ih

theorem loopV2_createDirPaths (env : Env2) (a : Args2) (files : List String) :
    createDirPaths (loopV2 env a files).1 = [] := by
  induction files with
  | nil => rfl
  | cons f fs ih =>
      unfold loopV2
      cases hg : env.hasGdal <;> cases hc : env.cliOk f <;>
        simp [hg, hc, ih, process_raster_python, process_raster_cli,
          createDirPaths, List.filterMap_append] <;>
          exact List.filterMap_eq_nil_iff.mp ih

/-- With the CLI tool available and no `--single-file`, the v2 driver runs
exactly one `gdal2tiles.py` invocation per enumerated file, in order. -/
theorem mainV2_tilesCmds (env : Env2) (a : Args2)
    (hcli : env.gdalCliAvailable = true) (hs : a.singleFile = none) :
    tilesCmds (mainV2 env a).1
      = (tifFilesV2 env a).map
          (fun f => gdal2tilesCmdV2 a.minZoom a.maxZoom a.fmt a.resampling
            f a.outputDir) := by
  simp only [mainV2, hs, hcli, Bool.not_true, Bool.and_false,
    Bool.false_eq_true, if_false]
  cases he : (tifFilesV2 env a).isEmpty
  · simp only [Bool.false_eq_true, if_false]
    rw [tilesCmds_append, tilesCmds_append, loopV2_tilesCmds]
    cases ho : env.outputDirExists <;>
      simp [makedirs, ho, tilesCmds]
  · rw [List.isEmpty_iff] at he
    cases ho : env.outputDirExists <;>
      simp [he, ho, makedirs, tilesCmds]

theorem length_filter_eq_iff_all {α : Type} (p : α → Bool) (l : List α) :
    ((l.filter p).length = l.length) ↔ l.all p = true := by
  rw [List.filter_length_eq_length, List.all_eq_true]

/-- Exit code of v2 `main` without `--single-file`, characterized the way
the spec states it. -/
theorem mainV2_exit_none (env : Env2) (a : Args2) (hs : a.singleFile = none) :
    (mainV2 env a).2 =
      if !env.hasGdal && !env.gdalCliAvailable then 1
      else if (tifFilesV2 env a).isEmpty then 1
      else if (tifFilesV2 env a).all env.cliOk then 0 else 1 := by
  unfold mainV2
  rw [hs]
  cases hg : (!env.hasGdal && !env.gdalCliAvailable)
  · simp only [Bool.false_eq_true, if_false]
    cases he : (tifFilesV2 env a).isEmpty
    · simp only [Bool.false_eq_true, if_false]
      rw [show (loopV2 env a (tifFilesV2 env a)).2
            = ((tifFilesV2 env a).filter env.cliOk).length from
          loopV2_count env a (tifFilesV2 env a)]
      cases hall : (tifFilesV2 env a).all env.cliOk
      · have hne : (((tifFilesV2 env a).filter env.cliOk).length
            == (tifFilesV2 env a).length) = false := by
          rw [beq_eq_false_iff_ne]
          intro hcon
          rw [length_filter_eq_iff_all] at hcon
          rw [hcon] at hall
          cases hall
        simp [hne]
      · have heq := (length_filter_eq_iff_all env.cliOk (tifFilesV2 env a)).2 hall
        simp [heq]
    · simp [he]
  · simp [hg]

/-! ### Settling C3 -/

/-- C3 counterexample: with `gdal2tiles.py` unavailable (and so zero files
processed), the v1 driver still returns exit code 0 — it warns and goes on
to serve — where the claim demands exit code 1. -/
theorem claim3_counterexample :
    envNoTool.cli.gdal2tilesAvailable = false ∧
    argsDefault1.serveOnly = false ∧
    (mainV1 envNoTool argsDefault1).2 = 0 ∧
    (mainV1 envNoTool argsDefault1).2 ≠ 1 := by decide

/-- C3 amended: the v2 driver exits 1 when the tool is entirely
unavailable, 1 when no matching files are enumerated, 0 exactly when every
enumerated file is processed successfully (and 1 when some file fails);
the v1 driver returns 0 from its processing mode regardless. -/
theorem claim3_amended (env2 : Env2) (a : Args2) (e1 : EnvMain1)
    (a1 : Args1) :
    (mainV2 env2 { a with singleFile := none }).2 =
      (if !env2.hasGdal && !env2.gdalCliAvailable then 1
       else if (tifFilesV2 env2 { a with singleFile := none }).isEmpty then 1
       else if (tifFilesV2 env2 { a with singleFile := none }).all env2.cliOk
         then 0 else 1) ∧
    (mainV1 e1 { a1 with serveOnly := false }).2 = 0 := by
  exact ⟨mainV2_exit_none env2 { a with singleFile := none } rfl, rfl⟩

/-! ### Settling C4 -/

/-- C4 counterexample: the v2 driver's `glob('*.tif')` enumerates neither
`b.tiff` nor `B.TIF`, both of which end case-insensitively in
`.tiff`/`.tif` (and which the v1 filter accepts). -/
theorem claim4_counterexample :
    List.filter matchesV2 ["b.tiff"] = [] ∧ matchesV1 "b.tiff" = true ∧
    List.filter matchesV2 ["B.TIF"] = [] ∧ matchesV1 "B.TIF" = true := by
  decide

/-- C4 amended: the v1 driver enumerates exactly the files ending
case-insensitively in `.tif`/`.tiff` and attempts exactly one reprojection
invocation per enumerated file; the v2 driver enumerates only non-hidden
files ending in lowercase `.tif` and attempts exactly one tiling
invocation per enumerated file. -/
theorem claim4_amended (env : Env1) (inputDir outputDir : String)
    (z1 z2 : Int) (fmt rm : String) (env2 : Env2) (a : Args2) :
    warpCmds (process_with_gdal_cli { env with gdal2tilesAvailable := true }
        inputDir outputDir z1 z2 fmt rm).1
      = ((env.listing.filter matchesV1).map (pathJoin inputDir)).map
          (fun f => warpCmd (resamplingCli rm) f
            (vrtPathOf outputDir (sourceName f) env.timestamp)) ∧
    tilesCmds (mainV2 { env2 with gdalCliAvailable := true }
        { a with singleFile := none }).1
      = (tifFilesV2 env2 a).map
          (fun f => gdal2tilesCmdV2 a.minZoom a.maxZoom a.fmt a.resampling
            f a.outputDir) := by
  exact ⟨(process_cli_spec { env with gdal2tilesAvailable := true }
            inputDir outputDir z1 z2 fmt rm rfl).2,
         mainV2_tilesCmds { env2 with gdalCliAvailable := true }
           { a with singleFile := none } rfl rfl⟩

/-! ### Settling C5 -/

/-- C5: with the tool available, the returned `processed_sources` are
exactly the names of the files whose external invocations succeeded, in
enumeration order; every enumerated file gets its own `gdalwarp`
invocation (failures skip only their file), and every failing file leaves
a logged error. -/
theorem claim5_failure_skips_only_that_file (env : Env1)
    (inputDir outputDir : String) (z1 z2 : Int) (fmt rm : String) :
    (process_with_gdal_cli { env with gdal2tilesAvailable := true }
        inputDir outputDir z1 z2 fmt rm).2
      = (((env.listing.filter matchesV1).map (pathJoin inputDir)).filter
          (fileSucceeds env)).map sourceName ∧
    warpCmds (process_with_gdal_cli { env with gdal2tilesAvailable := true }
        inputDir outputDir z1 z2 fmt rm).1
      = ((env.listing.filter matchesV1).map (pathJoin inputDir)).map
          (fun f => warpCmd (resamplingCli rm) f
            (vrtPathOf outputDir (sourceName f) env.timestamp)) ∧
    ((env.listing.filter matchesV1).map (pathJoin inputDir)).all
      (fun f => fileSucceeds env f ||
        decide (Ev.logError ("Error processing " ++ f)
          ∈ (process_with_gdal_cli { env with gdal2tilesAvailable := true }
               inputDir outputDir z1 z2 fmt rm).1)) = true := by
  refine ⟨(process_cli_spec _ inputDir outputDir z1 z2 fmt rm rfl).1,
          (process_cli_spec _ inputDir outputDir z1 z2 fmt rm rfl).2, ?_⟩
  rw [List.all_eq_true]
  intro f hf
  cases hs : fileSucceeds env f
  · simp only [Bool.false_or, decide_eq_true_eq]
    unfold process_with_gdal_cli
    cases he : ((env.listing.filter matchesV1).map (pathJoin inputDir)).isEmpty
    · simp only [Bool.not_true, Bool.false_eq_true, if_false, he]
      exact List.mem_append_right _
        (processLoop_error_mem { env with gdal2tilesAvailable := true }
          outputDir z1 z2 fmt rm _ f hf hs)
    · rw [List.isEmpty_iff] at he
      rw [he] at hf
      cases hf
  · simp

/-! ### Settling C6 -/

/-- C6 counterexample: when `gdalwarp` succeeds but `gdal2tiles.py` fails,
the temporary Web Mercator VRT is created and never deleted (the `except`
clause is reached before the `os.remove`). -/
theorem claim6_counterexample :
    (envTilesFail.outcome "in/a.tif").warpOk = true ∧
    (envTilesFail.outcome "in/a.tif").tilesOk = false ∧
    createVrtCount (processOneTif envTilesFail "out" 0 14 "png" "cubic"
      "in/a.tif").1 = 1 ∧
    removeCount (processOneTif envTilesFail "out" 0 14 "png" "cubic"
      "in/a.tif").1 = 0 := by decide

/-- C6 amended: per source file, the temporary VRT is created when the
reprojection step succeeds, and deleted before moving on only when the
tiling step (and the removal itself) also succeeds — a tiling failure
leaks the VRT; all writes of the per-file processing go inside the output
directory. -/
theorem claim6_amended (env : Env1) (outputDir : String) (z1 z2 : Int)
    (fmt rm f : String) :
    createVrtCount (processOneTif env outputDir z1 z2 fmt rm f).1
      = (if (env.outcome f).warpOk then 1 else 0) ∧
    removeCount (processOneTif env outputDir z1 z2 fmt rm f).1
      = (if (env.outcome f).warpOk && (env.outcome f).tilesOk &&
           (env.outcome f).removeOk then 1 else 0) ∧
    (writeTargets (processOneTif env outputDir z1 z2 fmt rm f).1).all
      (fun p => pyStartswith (outputDir ++ "/") p) = true :=
  ⟨processOneTif_createVrtCount env outputDir z1 z2 fmt rm f,
   processOneTif_removeCount env outputDir z1 z2 fmt rm f,
   processOneTif_writeTargets env outputDir z1 z2 fmt rm f⟩

/-! ### Settling C7 -/

/-- C7 counterexample: with the input directory missing, the v1 driver
creates it (`os.makedirs(args.input_dir, exist_ok=True)`) and proceeds to
enumerate and exit 0, where the claim demands a fatal run without
creating the input directory. -/
theorem claim7_counterexample :
    envNoInputDir.inputDirExists = false ∧
    Ev.createDir "raster_input" ∈ (mainV1 envNoInputDir argsDefault1).1 ∧
    (mainV1 envNoInputDir argsDefault1).2 = 0 := by decide

/-- C7 amended: the v2 driver creates only the output directory and, when
the input directory is missing, exits 1 without creating it (its glob
enumerates nothing); the v1 driver auto-creates a missing input directory
as well and proceeds, returning 0 from processing mode. -/
theorem claim7_amended (env2 : Env2) (a : Args2) (e1 : EnvMain1)
    (a1 : Args1) :
    (createDirPaths (mainV2 env2 a).1).all (fun p => p == a.outputDir)
      = true ∧
    (mainV2 { env2 with inputDirExists := false }
      { a with singleFile := none }).2 = 1 ∧
    Ev.createDir a1.inputDir
      ∈ (mainV1 { e1 with inputDirExists := false } a1).1 ∧
    (mainV1 { e1 with inputDirExists := false }
      { a1 with serveOnly := false }).2 = 0 ∧
    Ev.createDir a.outputDir
      ∈ (mainV2 { env2 with gdalCliAvailable := true, outputDirExists := false } a).1 := by
  refine ⟨?_, ?_, ?_, rfl, ?_⟩
  · unfold mainV2
    cases hg : (!env2.hasGdal && !env2.gdalCliAvailable) <;>
      cases hs : a.singleFile <;>
        cases hex : env2.singleFileExists <;>
          cases ho : env2.outputDirExists <;>
            cases he : (tifFilesV2 env2 a).isEmpty <;>
              simp [hg, hs, hex, ho, he, makedirs, createDirPaths,
                createDirPaths_append, List.filterMap_append,
                loopV2_createDirPaths] <;>
              (intro x hx
               have hnone := List.filterMap_eq_nil_iff.mp
                 (loopV2_createDirPaths env2 a _) x hx
               simp [hnone])
  · unfold mainV2
    cases hg : (!env2.hasGdal && !env2.gdalCliAvailable) <;>
      simp [hg, tifFilesV2]
  · unfold mainV1
    cases hso : a1.serveOnly <;>
      cases ho : e1.outputDirExists <;>
        cases hsub : e1.outputSubdirs.isEmpty <;>
          simp [hso, ho, hsub, makedirs]
  · unfold mainV2
    cases hg2 : env2.hasGdal <;>
      cases hs : a.singleFile <;>
        cases hex : env2.singleFileExists <;>
          simp [hg2, hs, hex, makedirs] <;> split <;> simp

/-! ### Settling C9 -/

/-- C9 counterexample: the v2 CLI path passes an unrecognized resampling
string (`bogus`) straight through to `gdal2tiles.py` instead of
substituting `cubic` (which only the v1 path does). -/
theorem claim9_counterexample :
    resampling_map.lookup "bogus" = none ∧
    "--resampling=bogus" ∈ gdal2tilesCmdV2 8 14 "png" "bogus" "in/a.tif" "out" ∧
    "--resampling=cubic" ∉ gdal2tilesCmdV2 8 14 "png" "bogus" "in/a.tif" "out" ∧
    resamplingCli "bogus" = "cubic" := by decide

/-- C9 amended: for a resampling string outside the recognized map, the
v1 CLI path silently substitutes the default `cubic` in the `gdalwarp`
arguments, while the v2 CLI path forwards the string verbatim in its
`--resampling=` flag. -/
theorem claim9_amended (m : String) (z1 z2 : Int) (fmt i o t v : String)
    (h : resampling_map.lookup m = none) :
    resamplingCli m = "cubic" ∧
    warpCmd (resamplingCli m) t v = warpCmd "cubic" t v ∧
    ("--resampling=" ++ m) ∈ gdal2tilesCmdV2 z1 z2 fmt m i o := by
  have h1 : resamplingCli m = "cubic" := by
    unfold resamplingCli
    rw [h]
    rfl
  refine ⟨h1, by rw [h1], ?_⟩
  unfold gdal2tilesCmdV2
  cases hf : (pyLower fmt != "png") <;> simp [hf]

/-- C9 amended, witnessed at the unrecognized string `bogus`. -/
theorem claim9_amended_witness :
    resampling_map.lookup "bogus" = none ∧
    (resamplingCli "bogus" = "cubic" ∧
     warpCmd (resamplingCli "bogus") "t.tif" "v.vrt"
       = warpCmd "cubic" "t.tif" "v.vrt" ∧
     ("--resampling=" ++ "bogus")
       ∈ gdal2tilesCmdV2 8 14 "png" "bogus" "in/a.tif" "out") :=
  ⟨by decide,
   claim9_amended "bogus" 8 14 "png" "in/a.tif" "out" "t.tif" "v.vrt"
     (by decide)⟩

/-! ### Settling C8: counting occurrences chunk by chunk

The generated document is too long for the kernel to scan in one go, so
the count is decomposed along the document's concatenation structure: an
occurrence of `p` starting inside `xs` within `xs ++ ys` sees at most the
first `|p| - 1` characters of `ys`. -/

theorem string_toList_append (a b : String) :
    (a ++ b).toList = a.toList ++ b.toList := String.data_append a b

theorem toList_empty : ("" : String).toList = [] := rfl

theorem headMatches_short (p l : List Char) (h : l.length < p.length) :
    headMatches p l = false := by
  induction p generalizing l with
  | nil => simp at h
  | cons a ps ih =>
      cases l with
      | nil => rfl
      | cons c cs =>
          simp only [headMatches]
          rw [ih cs (by simp at h; omega)]
          simp

theorem headMatches_take (p l : List Char) :
    headMatches p l = headMatches p (l.take p.length) := by
  induction p generalizing l with
  | nil => rfl
  | cons a ps ih =>
      cases l with
      | nil => rfl
      | cons c cs =>
          simp only [headMatches, List.length_cons, List.take_succ_cons]
          rw [← ih cs]

theorem countOccurL_short (p l : List Char) (h : l.length < p.length) :
    countOccurL p l = 0 := by
  induction l with
  | nil => rfl
  | cons c cs ih =>
      have h1 : cs.length < p.length := by simp at h; omega
      simp only [countOccurL, headMatches_short p _ h, ih h1]
      simp

theorem countOccurL_append (p xs ys : List Char) :
    countOccurL p (xs ++ ys)
      = boundedCount p xs (ys.take (p.length - 1)) + countOccurL p ys := by
  induction xs with
  | nil =>
      show countOccurL p ys
        = countOccurL p (ys.take (p.length - 1)) + countOccurL p ys
      have hz : countOccurL p (ys.take (p.length - 1)) = 0 := by
        cases hp : p with
        | nil => rfl
        | cons a ps =>
            subst hp
            apply countOccurL_short
            rw [List.length_take]
            simp only [List.length_cons]
            omega
      omega
  | cons c cs ih =>
      have hm : headMatches p (c :: (cs ++ ys))
          = headMatches p (c :: (cs ++ ys.take (p.length - 1))) := by
        rw [headMatches_take p (c :: (cs ++ ys)),
            headMatches_take p (c :: (cs ++ ys.take (p.length - 1)))]
        cases hp : p.length with
        | zero => rfl
        | succ n =>
            simp only [List.take_succ_cons, Nat.succ_sub_one]
            rw [List.take_append_eq_append_take,
              List.take_append_eq_append_take, List.take_take]
            have hmin : min (n - cs.length) n = n - cs.length := by omega
            rw [hmin]
      show (if headMatches p (c :: (cs ++ ys)) = true then 1 else 0)
          + countOccurL p (cs ++ ys)
        = ((if headMatches p (c :: (cs ++ ys.take (p.length - 1))) = true
              then 1 else 0)
            + countOccurL p (cs ++ ys.take (p.length - 1)))
          + countOccurL p ys
      rw [ih, hm]
      unfold boundedCount
      omega

set_option maxRecDepth 40000 in
set_option maxHeartbeats 4000000 in
/-- C8: the viewer generated for sources `["alpha", "beta"]` and port
8090 contains exactly three `L.tileLayer(` definitions — exactly one base
OpenStreetMap reference layer and exactly two localhost tile layers,
referencing the `alpha` and `beta` URL templates exactly once each. -/
theorem claim8_viewer_two_layers_one_base (outputDir : String) :
    countOccur "L.tileLayer("
      (generate_html_viewer ["alpha", "beta"] outputDir 8090).2 = 3 ∧
    countOccur "L.tileLayer('https://\x7bs\x7d.tile.openstreetmap.org"
      (generate_html_viewer ["alpha", "beta"] outputDir 8090).2 = 1 ∧
    countOccur "L.tileLayer('http://localhost:"
      (generate_html_viewer ["alpha", "beta"] outputDir 8090).2 = 2 ∧
    countOccur "http://localhost:8090/alpha/\x7bz\x7d/\x7bx\x7d/\x7by\x7d.png"
      (generate_html_viewer ["alpha", "beta"] outputDir 8090).2 = 1 ∧
    countOccur "http://localhost:8090/beta/\x7bz\x7d/\x7bx\x7d/\x7by\x7d.png"
      (generate_html_viewer ["alpha", "beta"] outputDir 8090).2 = 1 := by
  refine ⟨?_, ?_, ?_, ?_, ?_⟩ <;>
    (unfold countOccur generate_html_viewer viewerHtml viewerHead
       viewerLayerSnippet viewerFoot String.join
     simp only [List.map_cons, List.map_nil, List.foldl_cons, List.foldl_nil]
     simp only [string_toList_append, toList_empty, List.append_assoc,
       List.nil_append]
     simp only [countOccurL_append]
     decide)

/-! ### Settling C10 -/

/-- C10: with `HAS_GDAL` true, `process_raster_python` returns exactly the
result of `process_raster_cli` on the same arguments, with identical
external invocations; with `HAS_GDAL` false it returns `False` and runs
nothing, writes nothing. -/
theorem claim10_python_path_delegates (env : Env2) (i o : String)
    (z1 z2 : Int) (fmt rm : String) :
    (process_raster_python { env with hasGdal := true } i o z1 z2 fmt rm).2
      = (process_raster_cli { env with hasGdal := true } i o z1 z2 fmt rm).2 ∧
    tilesCmds (process_raster_python { env with hasGdal := true }
        i o z1 z2 fmt rm).1
      = tilesCmds (process_raster_cli { env with hasGdal := true }
        i o z1 z2 fmt rm).1 ∧
    (process_raster_python { env with hasGdal := false } i o z1 z2 fmt rm).2
      = false ∧
    tilesCmds (process_raster_python { env with hasGdal := false }
        i o z1 z2 fmt rm).1 = [] ∧
    writeTargets (process_raster_python { env with hasGdal := false }
        i o z1 z2 fmt rm).1 = [] := by
  refine ⟨?_, ?_, rfl, rfl, rfl⟩
  · unfold process_raster_python
    cases hc : env.cliOk i <;> simp [hc, process_raster_cli]
  · unfold process_raster_python
    cases hc : env.cliOk i <;>
      simp [hc, process_raster_cli, tilesCmds, List.filterMap_append]

end RasterSandbox
